import Mathlib

/-!
Shallow embedding of the booking/slot-reservation engine of the aroundu
backend (routes/bookingRoutes.js section of src/routes/adminRoutes.js).
Tables are association lists keyed by numeric ids; timestamps are
milliseconds since epoch (Nat); calendar dates are day indices, with
`dayOf t = t / msPerDay` modelling `new Date(t).toISOString().split("T")[0]`.
-/

namespace AroundU

/-- A row of the `slots` table (recurring template). -/
structure SlotTemplate where
  professor_id : Nat
  capacity : Nat
  deriving DecidableEq, Repr

/-- A row of the `slot_instances` table. -/
structure SlotInstance where
  slot_id : Option Nat
  date : Nat
  start_ts : Nat
  end_ts : Nat
  capacity : Nat
  created_by : Option Nat
  deriving DecidableEq, Repr

/-- `booking_requests.status` values. -/
inductive ReqStatus
  | pending
  | accepted
  | rejected
  deriving DecidableEq, Repr

/-- A row of the `booking_requests` table. -/
structure BookingRequest where
  slot_instance_id : Option Nat
  requester_id : Nat
  requester_message : Option String
  status : ReqStatus
  deriving DecidableEq, Repr

/-- A row of the `bookings` table. -/
structure Booking where
  slot_instance_id : Nat
  request_id : Nat
  user_id : Nat
  deriving DecidableEq, Repr

/-- The database state touched by the booking engine. -/
structure DB where
  slots : List (Nat × SlotTemplate)
  slot_instances : List (Nat × SlotInstance)
  booking_requests : List (Nat × BookingRequest)
  bookings : List Booking
  users : List Nat
  nextId : Nat
  deriving DecidableEq, Repr

/-- `SELECT * FROM t WHERE id = k` on an association list. -/
def lookupA {α : Type} (l : List (Nat × α)) (k : Nat) : Option α :=
  (l.find? (fun p => p.1 == k)).map Prod.snd

/-- `UPDATE t SET ... WHERE id = k` on an association list. -/
def updateA {α : Type} (l : List (Nat × α)) (k : Nat) (f : α → α) :
    List (Nat × α) :=
  l.map (fun p => if p.1 == k then (p.1, f p.2) else p)

/-- `DELETE FROM t WHERE id = k` on an association list. -/
def removeA {α : Type} (l : List (Nat × α)) (k : Nat) : List (Nat × α) :=
  l.filter (fun p => p.1 != k)

/-- HTTP-level error classes used by the handlers. -/
inductive ApiError
  | notFound (msg : String)
  | badRequest (msg : String)
  | forbidden (msg : String)
  | conflict (msg : String)
  deriving DecidableEq, Repr

/-- `COALESCE(si.created_by, s.professor_id)`: owner resolution used by the
submit, delete and batch-creation handlers (instance `created_by` first,
template owner as fallback). -/
def resolvedOwner (db : DB) (si : SlotInstance) : Option Nat :=
  match si.created_by with
  | some c => some c
  | none => (si.slot_id.bind (lookupA db.slots)).map (·.professor_id)

/-- Owner resolution of the accept handler:
`slot ? slot.professor_id : (si.created_by ? si.created_by : null)` —
template owner first, `created_by` only when no template row resolves. -/
def acceptOwner (slots : List (Nat × SlotTemplate)) (si : SlotInstance) :
    Option Nat :=
  match si.slot_id.bind (lookupA slots) with
  | some s => some s.professor_id
  | none => si.created_by

/-- Effective capacity computed by the accept handler: instance capacity
if > 0, else template capacity if > 0, else 0 meaning unlimited. -/
def effectiveCapacity (slots : List (Nat × SlotTemplate)) (si : SlotInstance) :
    Nat :=
  let slot := si.slot_id.bind (lookupA slots)
  let instanceCapacity := if si.capacity > 0 then si.capacity else 0
  let templateCapacity :=
    match slot with
    | some s => if s.capacity > 0 then s.capacity else 0
    | none => 0
  if instanceCapacity > 0 then instanceCapacity else templateCapacity

/-- `SELECT COUNT(*) FROM bookings WHERE slot_instance_id = siId`. -/
def countBookings (db : DB) (siId : Nat) : Nat :=
  (db.bookings.filter (fun b => b.slot_instance_id == siId)).length

/-- The check phase of POST /requests/:id/accept, in source order: request
row lookup, pending check, instance lookup, template lookup, owner
resolution, authorization, capacity check, requester-exists check.  On
success returns the instance id and the request row. -/
def acceptCheck (db : DB) (requestId professorId : Nat) :
    Except ApiError (Nat × BookingRequest) :=
  match lookupA db.booking_requests requestId with
  | none => .error (.notFound "Request not found")
  | some br =>
    if br.status ≠ .pending then .error (.badRequest "Request not pending")
    else
      match br.slot_instance_id with
      | none => .error (.badRequest "Request has no slot instance")
      | some siId =>
        match lookupA db.slot_instances siId with
        | none => .error (.badRequest "Slot instance not found")
        | some si =>
          match acceptOwner db.slots si with
          | none =>
            .error (.badRequest
              "Slot instance missing owner/professor (data inconsistency)")
          | some owner =>
            if owner ≠ professorId then
              .error (.forbidden "Not authorized to accept this request")
            else if 0 < effectiveCapacity db.slots si ∧
                effectiveCapacity db.slots si ≤ countBookings db siId then
              .error (.conflict "Capacity full")
            else if br.requester_id ∈ db.users then
              .ok (siId, br)
            else .error (.badRequest "Requester user not found")

/-- POST /requests/:id/accept: on any failed check the transaction is
rolled back (state unchanged); on success one booking row is inserted and
the request is marked accepted, atomically. -/
def acceptRequest (db : DB) (requestId professorId : Nat) :
    Except ApiError Booking × DB :=
  match acceptCheck db requestId professorId with
  | .error e => (.error e, db)
  | .ok (siId, br) =>
    let booking : Booking :=
      { slot_instance_id := siId, request_id := requestId
        user_id := br.requester_id }
    (.ok booking,
      { db with
        bookings := db.bookings ++ [booking]
        booking_requests := updateA db.booking_requests requestId
          (fun q => { q with status := .accepted }) })

/-- The ownership query of POST /requests/:id/reject: inner joins
`booking_requests → slot_instances → slots`, so it yields a row only when
the instance exists AND references an existing template. -/
def rejectRow (db : DB) (requestId : Nat) : Option (Nat × ReqStatus) := do
  let br ← lookupA db.booking_requests requestId
  let siId ← br.slot_instance_id
  let si ← lookupA db.slot_instances siId
  let sId ← si.slot_id
  let s ← lookupA db.slots sId
  pure (s.professor_id, br.status)

/-- POST /requests/:id/reject. -/
def rejectRequest (db : DB) (requestId professorId : Nat) :
    Except ApiError Unit × DB :=
  match rejectRow db requestId with
  | none => (.error (.notFound "Request not found"), db)
  | some (prof, status) =>
    if prof ≠ professorId then (.error (.forbidden "Not authorized"), db)
    else if status ≠ .pending then
      (.error (.badRequest "Request not pending"), db)
    else
      (.ok (),
        { db with
          booking_requests := updateA db.booking_requests requestId
            (fun q => { q with status := .rejected }) })

/-- `booking_requests WHERE slot_instance_id = i AND requester_id = r`
is non-empty (note: no status filter). -/
def hasRequest (db : DB) (instanceId requesterId : Nat) : Bool :=
  db.booking_requests.any
    (fun p => p.2.slot_instance_id == some instanceId &&
      p.2.requester_id == requesterId)

/-- POST /slot-instances/:id/request. -/
def submitRequest (db : DB) (instanceId requesterId : Nat)
    (message : Option String) : Except ApiError BookingRequest × DB :=
  match lookupA db.slot_instances instanceId with
  | none => (.error (.notFound "Slot instance not found"), db)
  | some si =>
    if resolvedOwner db si = some requesterId then
      (.error (.forbidden "Owners cannot request their own slot"), db)
    else if hasRequest db instanceId requesterId then
      (.error (.conflict "You already requested this slot"), db)
    else
      let req : BookingRequest :=
        { slot_instance_id := some instanceId, requester_id := requesterId
          requester_message := message, status := .pending }
      (.ok req,
        { db with
          booking_requests := db.booking_requests ++ [(db.nextId, req)]
          nextId := db.nextId + 1 })

/-- DELETE /slot-instances/:id: ownership check then a bare
`DELETE FROM slot_instances WHERE id = $1` — no other table is touched. -/
def deleteInstance (db : DB) (instanceId professorId : Nat) :
    Except ApiError Unit × DB :=
  match lookupA db.slot_instances instanceId with
  | none => (.error (.notFound "Slot instance not found"), db)
  | some si =>
    if resolvedOwner db si ≠ some professorId then
      (.error (.forbidden "Not authorized to delete this instance"), db)
    else
      (.ok (), { db with slot_instances := removeA db.slot_instances instanceId })

/-- One submitted range of POST /slot-instances/batch. -/
structure BatchRange where
  start_ts : Nat
  end_ts : Nat
  capacity : Nat
  notes : Option String
  slot_id : Option Nat
  deriving DecidableEq, Repr

def msPerDay : Nat := 86400000

/-- Calendar day of a millisecond timestamp, modelling
`new Date(t).toISOString().split("T")[0]` with dates as day indices. -/
def dayOf (t : Nat) : Nat := t / msPerDay

/-- The overlap helper of the batch handler:
`(aStart, aEnd, bStart, bEnd) => !(aEnd <= bStart || bEnd <= aStart)`. -/
def overlaps (aStart aEnd bStart bEnd : Nat) : Bool :=
  !(decide (aEnd ≤ bStart) || decide (bEnd ≤ aStart))

/-- Per-range validation of the batch handler: start < end and both
timestamps fall on the provided date.  (The handler's distinct 400
messages are collapsed into one validation error.) -/
def rangeValid (date : Nat) (r : BatchRange) : Bool :=
  decide (r.start_ts < r.end_ts) && (dayOf r.start_ts == date) &&
    (dayOf r.end_ts == date)

/-- Errors of the batch handler; the two overlap variants are 409 Conflict
responses, `validation` is a 400. -/
inductive BatchError
  | validation (msg : String)
  | overlapExisting
  | overlapPair
  deriving DecidableEq, Repr

/-- Whether a `BatchError` is one of the 409 Conflict responses. -/
def BatchError.isConflict : BatchError → Bool
  | .validation _ => false
  | .overlapExisting => true
  | .overlapPair => true

/-- The existing-instances query of the batch handler:
`WHERE si.date = $1 AND COALESCE(si.created_by, s.professor_id) = $2`
(LEFT JOIN slots), projected to (start_ts, end_ts). -/
def existingFor (db : DB) (professorId date : Nat) : List (Nat × Nat) :=
  (db.slot_instances.filter
    (fun p => p.2.date == date && resolvedOwner db p.2 == some professorId)).map
    (fun p => (p.2.start_ts, p.2.end_ts))

/-- The nested overlap-checking loops of the batch handler, in source
order: for each range i, first ranges-vs-existing, then ranges i-vs-j for
j > i. -/
def findConflict (existing : List (Nat × Nat)) :
    List BatchRange → Option BatchError
  | [] => none
  | r :: rest =>
    if existing.any (fun ex => overlaps r.start_ts r.end_ts ex.1 ex.2) then
      some .overlapExisting
    else if rest.any
        (fun rj => overlaps r.start_ts r.end_ts rj.start_ts rj.end_ts) then
      some .overlapPair
    else findConflict existing rest

/-- The slot_instances row inserted for one submitted range
(`created_by` is always the acting professor). -/
def toInstance (professorId date : Nat) (r : BatchRange) : SlotInstance :=
  { slot_id := r.slot_id, date := date, start_ts := r.start_ts
    end_ts := r.end_ts, capacity := r.capacity
    created_by := some professorId }

/-- Keys the freshly inserted rows with consecutive ids from `nextId`. -/
def insertRows (nextId : Nat) : List SlotInstance → List (Nat × SlotInstance)
  | [] => []
  | a :: t => (nextId, a) :: insertRows (nextId + 1) t

/-- POST /slot-instances/batch: validation, overlap checks, then an
all-or-nothing transactional insert. -/
def createInstanceBatch (db : DB) (professorId date : Nat)
    (ranges : List BatchRange) (today : Nat) :
    Except BatchError (List SlotInstance) × DB :=
  if ranges.isEmpty then
    (.error (.validation "date and non-empty ranges array required"), db)
  else if date < today then
    (.error (.validation "Cannot create slot instances for past dates"), db)
  else if ¬ ranges.all (rangeValid date) then
    (.error (.validation "Invalid start/end timestamps"), db)
  else
    match findConflict (existingFor db professorId date) ranges with
    | some e => (.error e, db)
    | none =>
      let newInstances := ranges.map (toInstance professorId date)
      (.ok newInstances,
        { db with
          slot_instances := db.slot_instances ++ insertRows db.nextId newInstances
          nextId := db.nextId + ranges.length })

/-- One call to the acceptance engine or the rejection path. -/
inductive BookingOp
  | accept (requestId professorId : Nat)
  | reject (requestId professorId : Nat)
  deriving DecidableEq, Repr

/-- State after one operation (responses discarded). -/
def applyOp (db : DB) (op : BookingOp) : DB :=
  match op with
  | .accept r p => (acceptRequest db r p).2
  | .reject r p => (rejectRequest db r p).2

/-- State after a sequence of accept/reject operations. -/
def applyOps (db : DB) (ops : List BookingOp) : DB :=
  ops.foldl applyOp db

/-! ### Association-list lemmas -/

theorem lookupA_updateA_self {α : Type} (l : List (Nat × α)) (k : Nat)
    (f : α → α) : lookupA (updateA l k f) k = (lookupA l k).map f := by
  unfold lookupA updateA
  rw [List.find?_map]
  have hcomp :
      ((fun p : Nat × α => p.1 == k) ∘
        fun p : Nat × α => if p.1 == k then (p.1, f p.2) else p) =
      fun p : Nat × α => p.1 == k := by
    funext p
    by_cases h : p.1 = k <;> simp [h]
  rw [hcomp]
  cases hfind : l.find? (fun p : Nat × α => p.1 == k) with
  | none => rfl
  | some p =>
    have hp : p.1 = k := by simpa using List.find?_some hfind
    simp [hp]

/-! ### Characterization of a successful accept check -/

theorem acceptCheck_ok {db : DB} {r p siId : Nat} {br : BookingRequest}
    (h : acceptCheck db r p = .ok (siId, br)) :
    lookupA db.booking_requests r = some br ∧ br.status = .pending ∧
      br.slot_instance_id = some siId ∧
      ∃ si, lookupA db.slot_instances siId = some si ∧
        acceptOwner db.slots si = some p ∧
        (effectiveCapacity db.slots si = 0 ∨
          countBookings db siId < effectiveCapacity db.slots si) ∧
        br.requester_id ∈ db.users := by
  unfold acceptCheck at h
  split at h
  · exact absurd h (by simp)
  case _ br' hbr =>
    split at h
    · exact absurd h (by simp)
    case _ hst =>
      split at h
      · exact absurd h (by simp)
      case _ siId' hid =>
        split at h
        · exact absurd h (by simp)
        case _ si hsi =>
          split at h
          · exact absurd h (by simp)
          case _ o ho =>
            split at h
            · exact absurd h (by simp)
            case _ howner =>
              split at h
              · exact absurd h (by simp)
              case _ hcap =>
                split at h
                case _ husers =>
                  rw [Except.ok.injEq, Prod.mk.injEq] at h
                  obtain ⟨h1, h2⟩ := h
                  subst h1; subst h2
                  push_neg at howner
                  subst howner
                  refine ⟨hbr, by simpa using hst, hid, si, hsi, ho, ?_, husers⟩
                  rcases Nat.eq_zero_or_pos (effectiveCapacity db.slots si) with hz | hpos
                  · exact Or.inl hz
                  · right
                    by_contra hge
                    exact hcap ⟨hpos, Nat.le_of_not_lt hge⟩
                · exact absurd h (by simp)

/-! ### Frame lemmas -/

theorem acceptRequest_error_snd {db : DB} {r p : Nat} {e : ApiError}
    (h : (acceptRequest db r p).1 = .error e) : (acceptRequest db r p).2 = db := by
  unfold acceptRequest at h ⊢
  cases hchk : acceptCheck db r p with
  | error e' => simp [hchk]
  | ok v => rw [hchk] at h; simp at h

theorem acceptRequest_ok_eq {db : DB} {r p siId : Nat} {br : BookingRequest}
    (h : acceptCheck db r p = .ok (siId, br)) :
    acceptRequest db r p =
      (.ok { slot_instance_id := siId, request_id := r, user_id := br.requester_id },
        { db with
          bookings := db.bookings ++
            [{ slot_instance_id := siId, request_id := r, user_id := br.requester_id }]
          booking_requests := updateA db.booking_requests r
            (fun q => { q with status := .accepted }) }) := by
  unfold acceptRequest
  rw [h]

theorem rejectRequest_snd (db : DB) (r p : Nat) :
    (rejectRequest db r p).2 = db ∨
      (rejectRequest db r p).2 =
        { db with
          booking_requests := updateA db.booking_requests r
            (fun q => { q with status := .rejected }) } := by
  unfold rejectRequest
  split
  · exact Or.inl rfl
  · split
    · exact Or.inl rfl
    · split
      · exact Or.inl rfl
      · exact Or.inr rfl

theorem applyOp_slots (db : DB) (op : BookingOp) : (applyOp db op).slots = db.slots := by
  cases op with
  | accept r p =>
    show (acceptRequest db r p).2.slots = db.slots
    unfold acceptRequest
    cases hchk : acceptCheck db r p with
    | error e => rfl
    | ok v => rfl
  | reject r p =>
    show (rejectRequest db r p).2.slots = db.slots
    rcases rejectRequest_snd db r p with h | h <;> rw [h]

theorem applyOp_slot_instances (db : DB) (op : BookingOp) :
    (applyOp db op).slot_instances = db.slot_instances := by
  cases op with
  | accept r p =>
    show (acceptRequest db r p).2.slot_instances = db.slot_instances
    unfold acceptRequest
    cases hchk : acceptCheck db r p with
    | error e => rfl
    | ok v => rfl
  | reject r p =>
    show (rejectRequest db r p).2.slot_instances = db.slot_instances
    rcases rejectRequest_snd db r p with h | h <;> rw [h]

theorem countBookings_eq_of_bookings_eq {db db' : DB}
    (h : db'.bookings = db.bookings) (siId : Nat) :
    countBookings db' siId = countBookings db siId := by
  unfold countBookings
  rw [h]

theorem countBookings_applyOp_le (db : DB) (op : BookingOp) (iId : Nat)
    (si : SlotInstance)
    (hsi : lookupA db.slot_instances iId = some si)
    (hpos : 0 < effectiveCapacity db.slots si)
    (hle : countBookings db iId ≤ effectiveCapacity db.slots si) :
    countBookings (applyOp db op) iId ≤ effectiveCapacity db.slots si := by
  cases op with
  | reject r p =>
    have hbk : (applyOp db (.reject r p)).bookings = db.bookings := by
      show (rejectRequest db r p).2.bookings = db.bookings
      rcases rejectRequest_snd db r p with h | h <;> rw [h]
    rw [countBookings_eq_of_bookings_eq hbk]
    exact hle
  | accept r p =>
    show countBookings (acceptRequest db r p).2 iId ≤ _
    cases hchk : acceptCheck db r p with
    | error e =>
      have h2 : (acceptRequest db r p).2 = db := by
        unfold acceptRequest
        rw [hchk]
      rw [h2]
      exact hle
    | ok v =>
      obtain ⟨siId', br'⟩ := v
      have heq := acceptRequest_ok_eq hchk
      obtain ⟨-, -, -, si', hsi', -, hcap, -⟩ := acceptCheck_ok hchk
      have hsnd : (acceptRequest db r p).2 =
          { db with
            bookings := db.bookings ++ [⟨siId', r, br'.requester_id⟩]
            booking_requests := updateA db.booking_requests r
              (fun q => { q with status := .accepted }) } := by
        rw [heq]
      rw [hsnd]
      by_cases hii : siId' = iId
      · subst hii
        rw [hsi] at hsi'
        obtain rfl : si = si' := by injection hsi'
        have hlt : countBookings db siId' < effectiveCapacity db.slots si := by
          rcases hcap with hz | hlt
          · omega
          · exact hlt
        unfold countBookings at hlt ⊢
        simp only [List.filter_append, List.length_append]
        have hone : (List.filter (fun b => b.slot_instance_id == siId')
            [(⟨siId', r, br'.requester_id⟩ : Booking)]).length = 1 := by simp
        rw [hone]
        omega
      · unfold countBookings at hle ⊢
        simp only [List.filter_append, List.length_append]
        have hzero : (List.filter (fun b => b.slot_instance_id == iId)
            [(⟨siId', r, br'.requester_id⟩ : Booking)]).length = 0 := by simp [hii]
        rw [hzero]
        omega

theorem countBookings_applyOps_le (iId : Nat) (si : SlotInstance) (C : Nat) :
    ∀ (ops : List BookingOp) (db : DB),
      lookupA db.slot_instances iId = some si →
      effectiveCapacity db.slots si = C →
      0 < C →
      countBookings db iId ≤ C →
      countBookings (applyOps db ops) iId ≤ C
  | [], _, _, _, _, hle => hle
  | op :: ops, db, hsi, hC, hpos, hle => by
    have h1 := applyOp_slot_instances db op
    have h2 := applyOp_slots db op
    have step : countBookings (applyOp db op) iId ≤ C := by
      have hstep := countBookings_applyOp_le db op iId si hsi
        (by rw [hC]; exact hpos) (by rw [hC]; exact hle)
      rw [hC] at hstep
      exact hstep
    have htail := countBookings_applyOps_le iId si C ops (applyOp db op)
      (by rw [h1]; exact hsi) (by rw [h2]; exact hC) hpos step
    simpa [applyOps] using htail

theorem acceptRequest_capacityFull {db : DB} {reqId p iId : Nat}
    {br : BookingRequest} {si : SlotInstance}
    (hbr : lookupA db.booking_requests reqId = some br)
    (hst : br.status = .pending)
    (hid : br.slot_instance_id = some iId)
    (hsi : lookupA db.slot_instances iId = some si)
    (ho : acceptOwner db.slots si = some p)
    (hpos : 0 < effectiveCapacity db.slots si)
    (hfull : effectiveCapacity db.slots si ≤ countBookings db iId) :
    acceptRequest db reqId p = (.error (.conflict "Capacity full"), db) := by
  have hchk : acceptCheck db reqId p = .error (.conflict "Capacity full") := by
    unfold acceptCheck
    simp [hbr, hst, hid, hsi, ho, hpos, hfull]
  unfold acceptRequest
  rw [hchk]

/-- C1: for every slot instance whose effective capacity — its own
capacity if > 0, else its template's capacity if > 0, else unlimited — is
a bounded C > 0, after any sequence of accept/reject operations the
number of booking rows for the instance stays at most C, and an accept of
a pending request for the instance by its resolved owner attempted when
the count has already reached C fails with Conflict "Capacity full" and
leaves the state unchanged (no booking row created). -/
theorem capacity_invariant (db : DB) (iId : Nat) (si : SlotInstance) (C : Nat)
    (hsi : lookupA db.slot_instances iId = some si)
    (hC : effectiveCapacity db.slots si = C)
    (hpos : 0 < C)
    (hinit : countBookings db iId ≤ C) :
    (∀ ops : List BookingOp, countBookings (applyOps db ops) iId ≤ C) ∧
    (∀ reqId p br, lookupA db.booking_requests reqId = some br →
      br.status = .pending → br.slot_instance_id = some iId →
      acceptOwner db.slots si = some p →
      C ≤ countBookings db iId →
      acceptRequest db reqId p = (.error (.conflict "Capacity full"), db)) := by
  constructor
  · intro ops
    exact countBookings_applyOps_le iId si C ops db hsi hC hpos hinit
  · intro reqId p br hbr hst hid ho hfull
    exact acceptRequest_capacityFull hbr hst hid hsi ho
      (by rw [hC]; exact hpos) (by rw [hC]; exact hfull)

/-- Fixture for the C1 witness: ad-hoc instance 7 owned by 2 with
capacity 1, one existing booking, one pending request. -/
def dbW1 : DB :=
  ⟨[], [(7, ⟨none, 0, 0, 10, 1, some 2⟩)],
    [(1, ⟨some 7, 3, none, .pending⟩)], [⟨7, 99, 4⟩], [3, 4], 100⟩

theorem capacity_invariant_witness :
    (countBookings (applyOps dbW1 [.accept 1 2, .reject 1 2]) 7 ≤ 1) ∧
    acceptRequest dbW1 1 2 = (.error (.conflict "Capacity full"), dbW1) := by
  have h := capacity_invariant dbW1 7 ⟨none, 0, 0, 10, 1, some 2⟩ 1 rfl rfl
    (by decide) (by decide)
  exact ⟨h.1 [.accept 1 2, .reject 1 2],
    h.2 1 2 ⟨some 7, 3, none, .pending⟩ rfl rfl rfl rfl (by decide)⟩

/-- C8: AcceptRequest is atomic — every failing outcome leaves the
database unchanged: no booking row is inserted and no request status is
modified. -/
theorem accept_atomic (db : DB) (r p : Nat) (e : ApiError)
    (h : (acceptRequest db r p).1 = .error e) :
    (acceptRequest db r p).2 = db :=
  acceptRequest_error_snd h

def dbW8 : DB := ⟨[], [], [], [], [], 0⟩

theorem accept_atomic_witness : (acceptRequest dbW8 0 0).2 = dbW8 :=
  accept_atomic dbW8 0 0 (.notFound "Request not found") rfl

theorem acceptRequest_notPending {db : DB} {r p : Nat} {br : BookingRequest}
    (hbr : lookupA db.booking_requests r = some br)
    (hst : br.status ≠ .pending) :
    acceptRequest db r p = (.error (.badRequest "Request not pending"), db) := by
  have hchk : acceptCheck db r p = .error (.badRequest "Request not pending") := by
    unfold acceptCheck
    simp [hbr, hst]
  unfold acceptRequest
  rw [hchk]

/-- C4: a successful AcceptRequest inserts exactly one booking row and
marks the request accepted; a second AcceptRequest of the same request
(by any caller) fails with "Request not pending" and changes nothing. -/
theorem no_double_accept (db : DB) (r p p2 : Nat) (b : Booking) (db1 : DB)
    (h : acceptRequest db r p = (.ok b, db1)) :
    db1.bookings.length = db.bookings.length + 1 ∧
    acceptRequest db1 r p2 =
      (.error (.badRequest "Request not pending"), db1) := by
  cases hchk : acceptCheck db r p with
  | error e =>
    unfold acceptRequest at h
    rw [hchk] at h
    simp at h
  | ok v =>
    obtain ⟨siId, br⟩ := v
    have heq := acceptRequest_ok_eq hchk
    rw [heq] at h
    obtain ⟨hbr, -, -, -⟩ := acceptCheck_ok hchk
    rw [Prod.mk.injEq] at h
    obtain ⟨-, h2⟩ := h
    subst h2
    constructor
    · simp
    · have hlk : lookupA (updateA db.booking_requests r
          (fun q => { q with status := ReqStatus.accepted })) r =
          some { br with status := ReqStatus.accepted } := by
        rw [lookupA_updateA_self, hbr]
        rfl
      exact acceptRequest_notPending hlk (by simp)

def dbW4 : DB :=
  ⟨[], [(7, ⟨none, 0, 0, 10, 1, some 2⟩)],
    [(1, ⟨some 7, 3, none, .pending⟩)], [], [3, 4], 100⟩

def dbW4' : DB :=
  ⟨[], [(7, ⟨none, 0, 0, 10, 1, some 2⟩)],
    [(1, ⟨some 7, 3, none, .accepted⟩)], [⟨7, 1, 3⟩], [3, 4], 100⟩

theorem no_double_accept_witness :
    dbW4'.bookings.length = dbW4.bookings.length + 1 ∧
    acceptRequest dbW4' 1 2 =
      (.error (.badRequest "Request not pending"), dbW4') :=
  no_double_accept dbW4 1 2 2 ⟨7, 1, 3⟩ dbW4' rfl

theorem acceptRequest_fst_error_iff (db : DB) (r p : Nat) (e : ApiError) :
    (acceptRequest db r p).1 = .error e ↔ acceptCheck db r p = .error e := by
  unfold acceptRequest
  cases h : acceptCheck db r p with
  | error e' => simp
  | ok v => simp

theorem acceptCheck_forbidden_iff {db : DB} {r p siId : Nat}
    {br : BookingRequest} {si : SlotInstance} {o : Nat}
    (hbr : lookupA db.booking_requests r = some br)
    (hst : br.status = .pending)
    (hid : br.slot_instance_id = some siId)
    (hsi : lookupA db.slot_instances siId = some si)
    (ho : acceptOwner db.slots si = some o) :
    (acceptCheck db r p =
      .error (.forbidden "Not authorized to accept this request") ↔ o ≠ p) := by
  unfold acceptCheck
  simp only [hbr, hst, hid, hsi, ho]
  by_cases h : o = p
  · subst h
    simp only [ne_eq, not_true_eq_false, if_false, ite_not]
    split
    · simp
    · split <;> simp
  · simp [h]

theorem rejectRequest_forbidden_iff {db : DB} {r p po : Nat} {st : ReqStatus}
    (h : rejectRow db r = some (po, st)) :
    ((rejectRequest db r p).1 = .error (.forbidden "Not authorized") ↔
      po ≠ p) := by
  unfold rejectRequest
  rw [h]
  by_cases hp : po = p
  · subst hp
    simp only [ne_eq, not_true_eq_false, if_false, ite_not]
    split <;> simp
  · simp [hp]

/-- Fixture for C2: instance 7 references template 1 owned by professor
10 and also has created_by = 2; request 1 is pending on it. -/
def dbW2 : DB :=
  ⟨[(1, ⟨10, 0⟩)], [(7, ⟨some 1, 0, 0, 10, 0, some 2⟩)],
    [(1, ⟨some 7, 3, none, .pending⟩)], [], [3, 4], 100⟩

/-- C2 counterexample: instance 7 has createdBy = 2 set, so by the claim
the authorizing owner is 2 regardless of the template; but accepting as 2
fails Forbidden while accepting as the template's owner 10 succeeds — the
code prefers the template's owner whenever a template exists. -/
theorem owner_resolution_counterexample :
    lookupA dbW2.slot_instances 7 = some ⟨some 1, 0, 0, 10, 0, some 2⟩ ∧
    (acceptRequest dbW2 1 2).1 =
      .error (.forbidden "Not authorized to accept this request") ∧
    (acceptRequest dbW2 1 10).1 = .ok ⟨7, 1, 3⟩ :=
  ⟨rfl, rfl, rfl⟩

/-- C2 amended: for AcceptRequest the authorizing owner is the template's
owner whenever the instance references an existing template (regardless
of createdBy), and the instance's createdBy only when no template row
resolves; the call fails Forbidden iff the acting identity differs from
that owner.  For RejectRequest the authorizing owner is the template's
owner obtained through an inner join (so it only resolves when a template
row exists), and the call fails Forbidden iff the acting identity differs
from it. -/
theorem owner_resolution_amended (db : DB) :
    (∀ r p br siId si o,
      lookupA db.booking_requests r = some br → br.status = .pending →
      br.slot_instance_id = some siId →
      lookupA db.slot_instances siId = some si →
      acceptOwner db.slots si = some o →
      ((acceptRequest db r p).1 =
        .error (.forbidden "Not authorized to accept this request") ↔ o ≠ p)) ∧
    (∀ r p po st, rejectRow db r = some (po, st) →
      ((rejectRequest db r p).1 = .error (.forbidden "Not authorized") ↔
        po ≠ p)) := by
  constructor
  · intro r p br siId si o hbr hst hid hsi ho
    rw [acceptRequest_fst_error_iff]
    exact acceptCheck_forbidden_iff hbr hst hid hsi ho
  · intro r p po st h
    exact rejectRequest_forbidden_iff h

theorem owner_resolution_amended_witness :
    ((acceptRequest dbW2 1 2).1 =
      .error (.forbidden "Not authorized to accept this request") ↔
      (10 : Nat) ≠ 2) ∧
    ((rejectRequest dbW2 1 99).1 = .error (.forbidden "Not authorized") ↔
      (10 : Nat) ≠ 99) :=
  ⟨(owner_resolution_amended dbW2).1 1 2 ⟨some 7, 3, none, .pending⟩ 7
      ⟨some 1, 0, 0, 10, 0, some 2⟩ 10 rfl rfl rfl rfl rfl,
    (owner_resolution_amended dbW2).2 1 99 10 .pending rfl⟩

/-- Fixture for C3: ad-hoc instance 7 (no template reference) created by
professor 2, with pending request 1 from user 3. -/
def dbW3 : DB :=
  ⟨[], [(7, ⟨none, 0, 0, 10, 0, some 2⟩)],
    [(1, ⟨some 7, 3, none, .pending⟩)], [], [3, 4], 100⟩

/-- C3 (code bug): booking request 1 exists, is pending, and its ad-hoc
slot instance resolves to owner 2, yet RejectRequest by that owner fails
NotFound "Request not found" — the reject handler's ownership query
inner-joins `slots`, dropping every instance without a template. -/
theorem reject_adhoc_not_found :
    lookupA dbW3.booking_requests 1 = some ⟨some 7, 3, none, .pending⟩ ∧
    lookupA dbW3.slot_instances 7 = some ⟨none, 0, 0, 10, 0, some 2⟩ ∧
    resolvedOwner dbW3 ⟨none, 0, 0, 10, 0, some 2⟩ = some 2 ∧
    rejectRequest dbW3 1 2 = (.error (.notFound "Request not found"), dbW3) :=
  ⟨rfl, rfl, rfl, rfl⟩

/-- C7: SubmitRequest fails NotFound when the instance is missing,
Forbidden when the requester is the resolved owner, Conflict when the
requester already has a request for the instance, and otherwise inserts
exactly one new pending BookingRequest; the guards are checked in this
order so exactly one outcome occurs per call. -/
theorem submit_request_outcomes (db : DB) (i req : Nat) (msg : Option String) :
    (lookupA db.slot_instances i = none →
      submitRequest db i req msg =
        (.error (.notFound "Slot instance not found"), db)) ∧
    (∀ si, lookupA db.slot_instances i = some si →
      resolvedOwner db si = some req →
      submitRequest db i req msg =
        (.error (.forbidden "Owners cannot request their own slot"), db)) ∧
    (∀ si, lookupA db.slot_instances i = some si →
      resolvedOwner db si ≠ some req → hasRequest db i req = true →
      submitRequest db i req msg =
        (.error (.conflict "You already requested this slot"), db)) ∧
    (∀ si, lookupA db.slot_instances i = some si →
      resolvedOwner db si ≠ some req → hasRequest db i req = false →
      submitRequest db i req msg =
        (.ok ⟨some i, req, msg, .pending⟩,
          { db with
            booking_requests := db.booking_requests ++
              [(db.nextId, ⟨some i, req, msg, .pending⟩)]
            nextId := db.nextId + 1 })) := by
  refine ⟨?_, ?_, ?_, ?_⟩
  · intro h
    unfold submitRequest
    simp [h]
  · intro si hsi hown
    unfold submitRequest
    simp [hsi, hown]
  · intro si hsi hown hdup
    unfold submitRequest
    simp [hsi, hown, hdup]
  · intro si hsi hown hdup
    unfold submitRequest
    simp [hsi, hown, hdup]

theorem submit_request_outcomes_witness :
    submitRequest dbW3 7 4 none =
      (.ok ⟨some 7, 4, none, .pending⟩,
        { dbW3 with
          booking_requests := dbW3.booking_requests ++
            [(dbW3.nextId, ⟨some 7, 4, none, .pending⟩)]
          nextId := dbW3.nextId + 1 }) :=
  (submit_request_outcomes dbW3 7 4 none).2.2.2 ⟨none, 0, 0, 10, 0, some 2⟩
    rfl (by decide) rfl

/-- C9: the duplicate check of SubmitRequest has no status filter — any
prior request by the same requester for the same instance, whatever its
status (e.g. already rejected), makes a fresh submission fail Conflict. -/
theorem duplicate_check_ignores_status (db : DB) (i req rid : Nat)
    (br : BookingRequest) (si : SlotInstance) (msg : Option String)
    (hsi : lookupA db.slot_instances i = some si)
    (hown : resolvedOwner db si ≠ some req)
    (hmem : (rid, br) ∈ db.booking_requests)
    (hbi : br.slot_instance_id = some i)
    (hbreq : br.requester_id = req) :
    submitRequest db i req msg =
      (.error (.conflict "You already requested this slot"), db) := by
  have hdup : hasRequest db i req = true := by
    unfold hasRequest
    rw [List.any_eq_true]
    exact ⟨(rid, br), hmem, by simp [hbi, hbreq]⟩
  unfold submitRequest
  simp [hsi, hown, hdup]

/-- Fixture for C9: user 3's request for instance 7 was already
rejected. -/
def dbW9 : DB :=
  ⟨[], [(7, ⟨none, 0, 0, 10, 0, some 2⟩)],
    [(1, ⟨some 7, 3, none, .rejected⟩)], [], [3, 4], 100⟩

theorem duplicate_check_ignores_status_witness :
    submitRequest dbW9 7 3 none =
      (.error (.conflict "You already requested this slot"), dbW9) :=
  duplicate_check_ignores_status dbW9 7 3 1 ⟨some 7, 3, none, .rejected⟩
    ⟨none, 0, 0, 10, 0, some 2⟩ none rfl (by decide) (by decide) rfl rfl

/-- C10: DeleteInstance by the resolved owner succeeds and removes only
the slot_instances row; the bookings and booking_requests tables are left
unchanged even when they still reference the deleted instance. -/
theorem delete_instance_frame (db : DB) (i p : Nat) (si : SlotInstance)
    (hsi : lookupA db.slot_instances i = some si)
    (hown : resolvedOwner db si = some p) :
    deleteInstance db i p =
      (.ok (), { db with slot_instances := removeA db.slot_instances i }) ∧
    (deleteInstance db i p).2.bookings = db.bookings ∧
    (deleteInstance db i p).2.booking_requests = db.booking_requests := by
  have h : deleteInstance db i p =
      (.ok (), { db with slot_instances := removeA db.slot_instances i }) := by
    unfold deleteInstance
    simp [hsi, hown]
  exact ⟨h, by rw [h], by rw [h]⟩

/-- Fixture for C10: instance 7 still has an accepted booking and an
accepted request referencing it. -/
def dbW10 : DB :=
  ⟨[], [(7, ⟨none, 0, 0, 10, 1, some 2⟩)],
    [(1, ⟨some 7, 3, none, .accepted⟩)], [⟨7, 1, 3⟩], [3, 4], 100⟩

theorem delete_instance_frame_witness :
    deleteInstance dbW10 7 2 =
      (.ok (), { dbW10 with slot_instances := removeA dbW10.slot_instances 7 }) ∧
    (deleteInstance dbW10 7 2).2.bookings = dbW10.bookings ∧
    (deleteInstance dbW10 7 2).2.booking_requests = dbW10.booking_requests :=
  delete_instance_frame dbW10 7 2 ⟨none, 0, 0, 10, 1, some 2⟩ rfl rfl

/-- The spec's pairwise non-overlap condition between submitted ranges. -/
def noPairOverlap (a b : BatchRange) : Prop :=
  overlaps a.start_ts a.end_ts b.start_ts b.end_ts = false

theorem findConflict_eq_none (existing : List (Nat × Nat)) :
    ∀ rs : List BatchRange,
      findConflict existing rs = none ↔
        (∀ r ∈ rs, ∀ ex ∈ existing,
          overlaps r.start_ts r.end_ts ex.1 ex.2 = false) ∧
        List.Pairwise noPairOverlap rs
  | [] => by simp [findConflict]
  | r :: rest => by
    have ih := findConflict_eq_none existing rest
    unfold findConflict
    by_cases hA : (existing.any fun ex =>
        overlaps r.start_ts r.end_ts ex.1 ex.2) = true
    · rw [if_pos hA]
      constructor
      · intro h
        exact absurd h (by simp)
      · rintro ⟨hex, -⟩
        rcases List.any_eq_true.mp hA with ⟨ex, hexm, hov⟩
        rw [hex r (List.mem_cons_self r rest) ex hexm] at hov
        simp at hov
    · rw [if_neg hA]
      by_cases hB : (rest.any fun rj =>
          overlaps r.start_ts r.end_ts rj.start_ts rj.end_ts) = true
      · rw [if_pos hB]
        constructor
        · intro h
          exact absurd h (by simp)
        · rintro ⟨-, hpw⟩
          rcases List.any_eq_true.mp hB with ⟨rj, hrjm, hov⟩
          have hno := (List.pairwise_cons.mp hpw).1 rj hrjm
          rw [hno] at hov
          simp at hov
      · rw [if_neg hB]
        rw [ih]
        have hAf : ∀ ex ∈ existing,
            overlaps r.start_ts r.end_ts ex.1 ex.2 = false := by
          intro ex hexm
          by_contra hne2
          exact hA (List.any_eq_true.mpr ⟨ex, hexm, by simpa using hne2⟩)
        have hBf : ∀ rj ∈ rest, noPairOverlap r rj := by
          intro rj hrjm
          by_contra hne2
          exact hB (List.any_eq_true.mpr
            ⟨rj, hrjm, by simpa [noPairOverlap] using hne2⟩)
        constructor
        · rintro ⟨hex, hpw⟩
          refine ⟨?_, List.pairwise_cons.mpr ⟨hBf, hpw⟩⟩
          intro r' hr'
          rcases List.mem_cons.mp hr' with rfl | hr2
          · exact hAf
          · exact hex r' hr2
        · rintro ⟨hex, hpw⟩
          exact ⟨fun r' hr' => hex r' (List.mem_cons_of_mem r hr'),
            (List.pairwise_cons.mp hpw).2⟩

theorem findConflict_some_isConflict {existing : List (Nat × Nat)} :
    ∀ {rs : List BatchRange} {e : BatchError},
      findConflict existing rs = some e → e.isConflict = true
  | [], _, h => by simp [findConflict] at h
  | r :: rest, e, h => by
    unfold findConflict at h
    split at h
    · rw [Option.some.injEq] at h
      subst h
      rfl
    · split at h
      · rw [Option.some.injEq] at h
        subst h
        rfl
      · exact findConflict_some_isConflict h

theorem createBatch_eq (db : DB) (p date today : Nat)
    (ranges : List BatchRange)
    (hne : ranges ≠ []) (hdate : ¬ date < today)
    (hvalid : ∀ r ∈ ranges, rangeValid date r = true) :
    createInstanceBatch db p date ranges today =
      match findConflict (existingFor db p date) ranges with
      | some e => (.error e, db)
      | none =>
        (.ok (ranges.map (toInstance p date)),
          { db with
            slot_instances := db.slot_instances ++
              insertRows db.nextId (ranges.map (toInstance p date))
            nextId := db.nextId + ranges.length }) := by
  unfold createInstanceBatch
  have h1 : ranges.isEmpty = false := by
    simpa [List.isEmpty_iff] using hne
  have h2 : ranges.all (rangeValid date) = true := List.all_eq_true.mpr hvalid
  simp [h1, hdate, h2]

/-- C5: CreateInstanceBatch is all-or-nothing — if any submitted range
overlaps an existing same-owner same-date instance or any two submitted
ranges overlap each other, the batch fails with a Conflict error and no
instance is inserted; otherwise every submitted range is inserted. -/
theorem batch_all_or_nothing (db : DB) (p date today : Nat)
    (ranges : List BatchRange)
    (hne : ranges ≠ []) (hdate : ¬ date < today)
    (hvalid : ∀ r ∈ ranges, rangeValid date r = true) :
    (((∃ r ∈ ranges, ∃ ex ∈ existingFor db p date,
        overlaps r.start_ts r.end_ts ex.1 ex.2 = true) ∨
      ¬ List.Pairwise noPairOverlap ranges) →
      ∃ e : BatchError, e.isConflict = true ∧
        createInstanceBatch db p date ranges today = (.error e, db)) ∧
    ((∀ r ∈ ranges, ∀ ex ∈ existingFor db p date,
        overlaps r.start_ts r.end_ts ex.1 ex.2 = false) ∧
      List.Pairwise noPairOverlap ranges →
      createInstanceBatch db p date ranges today =
        (.ok (ranges.map (toInstance p date)),
          { db with
            slot_instances := db.slot_instances ++
              insertRows db.nextId (ranges.map (toInstance p date))
            nextId := db.nextId + ranges.length })) := by
  have hred := createBatch_eq db p date today ranges hne hdate hvalid
  constructor
  · intro hov
    have hnn : findConflict (existingFor db p date) ranges ≠ none := by
      intro hn
      rcases (findConflict_eq_none _ _).mp hn with ⟨hex, hpw⟩
      rcases hov with ⟨r, hr, ex, hexm, hovr⟩ | hnp
      · rw [hex r hr ex hexm] at hovr
        simp at hovr
      · exact hnp hpw
    cases hfc : findConflict (existingFor db p date) ranges with
    | none => exact absurd hfc hnn
    | some e =>
      refine ⟨e, findConflict_some_isConflict hfc, ?_⟩
      rw [hred, hfc]
  · rintro ⟨hex, hpw⟩
    have hn : findConflict (existingFor db p date) ranges = none :=
      (findConflict_eq_none _ _).mpr ⟨hex, hpw⟩
    rw [hred, hn]

theorem batch_all_or_nothing_witness :
    ∃ e : BatchError, e.isConflict = true ∧
      createInstanceBatch dbW8 5 0
        [⟨0, 100, 0, none, none⟩, ⟨50, 200, 0, none, none⟩] 0 =
        (.error e, dbW8) :=
  (batch_all_or_nothing dbW8 5 0 0
      [⟨0, 100, 0, none, none⟩, ⟨50, 200, 0, none, none⟩]
      (by decide) (by decide) (by decide)).1
    (Or.inr (fun hpw =>
      absurd ((List.pairwise_cons.mp hpw).1 ⟨50, 200, 0, none, none⟩
        (by simp)) (by unfold noPairOverlap overlaps; decide)))

theorem chain_adjacent_pairwise (l : List BatchRange)
    (hv : ∀ r ∈ l, r.start_ts < r.end_ts)
    (hc : List.Chain' (fun a b => a.end_ts = b.start_ts) l) :
    List.Pairwise (fun a b => a.end_ts ≤ b.start_ts) l := by
  induction l with
  | nil => exact List.Pairwise.nil
  | cons a t ih =>
    cases t with
    | nil => simp
    | cons b t2 =>
      rw [List.chain'_cons] at hc
      have hpw := ih (fun r hr => hv r (List.mem_cons_of_mem a hr)) hc.2
      refine List.pairwise_cons.mpr ⟨?_, hpw⟩
      intro c hcmem
      rcases List.mem_cons.mp hcmem with rfl | hct
      · exact le_of_eq hc.1
      · have h1 : b.end_ts ≤ c.start_ts := (List.pairwise_cons.mp hpw).1 c hct
        have h2 : b.start_ts < b.end_ts := hv b (by simp)
        have h3 := hc.1
        omega

theorem pairwise_no_overlap_of_adjacent (l : List BatchRange)
    (hv : ∀ r ∈ l, r.start_ts < r.end_ts)
    (hc : List.Chain' (fun a b => a.end_ts = b.start_ts) l) :
    List.Pairwise noPairOverlap l := by
  refine (chain_adjacent_pairwise l hv hc).imp ?_
  intro a b hle
  unfold noPairOverlap overlaps
  simp [hle]

/-- C6: the batch overlap test treats ranges as half-open intervals —
overlap iff NOT (e1 ≤ s2 OR e2 ≤ s1) — so a batch of valid
exactly-adjacent ranges (each end equal to the next start) on a date with
no existing instances is inserted in full. -/
theorem overlap_half_open :
    (∀ s1 e1 s2 e2 : Nat,
      overlaps s1 e1 s2 e2 = true ↔ ¬ (e1 ≤ s2 ∨ e2 ≤ s1)) ∧
    (∀ (db : DB) (p date today : Nat) (ranges : List BatchRange),
      ranges ≠ [] → ¬ date < today →
      (∀ r ∈ ranges, rangeValid date r = true) →
      existingFor db p date = [] →
      List.Chain' (fun a b => a.end_ts = b.start_ts) ranges →
      (createInstanceBatch db p date ranges today).1 =
        .ok (ranges.map (toInstance p date))) := by
  constructor
  · intro s1 e1 s2 e2
    unfold overlaps
    simp [not_or]
  · intro db p date today ranges hne hdate hvalid hex hchain
    have hv : ∀ r ∈ ranges, r.start_ts < r.end_ts := by
      intro r hr
      have hval := hvalid r hr
      unfold rangeValid at hval
      simp only [Bool.and_eq_true, decide_eq_true_iff] at hval
      exact hval.1.1
    have hpw := pairwise_no_overlap_of_adjacent ranges hv hchain
    have hred := createBatch_eq db p date today ranges hne hdate hvalid
    have hn : findConflict (existingFor db p date) ranges = none :=
      (findConflict_eq_none _ _).mpr ⟨by simp [hex], hpw⟩
    rw [hred, hn]

theorem overlap_half_open_witness :
    (overlaps 0 10 5 15 = true ↔ ¬ (10 ≤ 5 ∨ 15 ≤ 0)) ∧
    (createInstanceBatch dbW8 5 0
        [⟨0, 100, 0, none, none⟩, ⟨100, 200, 0, none, none⟩] 0).1 =
      .ok ([⟨0, 100, 0, none, none⟩,
        ⟨100, 200, 0, none, none⟩].map (toInstance 5 0)) :=
  ⟨overlap_half_open.1 0 10 5 15,
    overlap_half_open.2 dbW8 5 0 0
      [⟨0, 100, 0, none, none⟩, ⟨100, 200, 0, none, none⟩]
      (by decide) (by decide) (by decide) rfl
      (by simp [List.chain'_cons])⟩

end AroundU
